import Mathlib

/-!
Shallow embedding of the graphics-entity driver layer
(`src/graphics/graphics_entity_driver.cpp`), the `GuiDocument` scene
bookkeeping (`src/gui/gui_document.cpp`) and the VRML/glTF exporters
(`src/base/io_occ_vrml.cpp`, `src/base/io_occ_gltf_writer.cpp`) of the
color-mayo repository.

Kernel-level (OpenCascade) facts about document labels are abstracted as
fields of `TDF_Label`; opaque kernel handles (documents, triangulations)
are modelled as `Nat` ids.  C++ functions that may `throw` are embedded as
`Except String`-valued functions; a thrown exception is an `.error` result
carrying the exception message, produced before any mutation that the C++
code would have performed after the throwing statement.
-/

/-- `TopAbs_ShapeEnum` — the topological shape types of the kernel. -/
inductive TopAbs_ShapeEnum
  | compound | compsolid | solid | shell | face | wire | edge | vertex | anyShape
  deriving DecidableEq, BEq

/-- A kernel `TopoDS_Shape`, abstracted to the facts the repository code
inspects: its shape type, and — when it is a FACE — the `Poly_Triangulation`
stored in its `BRep_TFace` (`none` when the `Handle_BRep_TFace::DownCast`
fails or the stored triangulation handle is null).  Triangulation handles
are opaque `Nat` ids. -/
structure TopoDS_Shape where
  shapeType : TopAbs_ShapeEnum
  tfaceTriangulation : Option Nat
  deriving DecidableEq, BEq

/-- A document label (`TDF_Label`), abstracted to the kernel/document facts
that the repository code queries about it:
* `isShape` — the result of `XCaf::isShape(label)`;
* `shape` — the result of `XCaf::shape(label)` (meaningful when `isShape`);
* `triangulationAttr` — the `TDataXtd_Triangulation` attribute: the outer
  `Option` is attribute presence (`CafUtils::hasAttribute` /
  `CafUtils::findAttribute`), the inner `Option` is the attribute's stored
  `Poly_Triangulation` handle, which may itself be null. -/
structure TDF_Label where
  isShape : Bool
  shape : TopoDS_Shape
  triangulationAttr : Option (Option Nat)
  deriving DecidableEq, BEq

/-- `XCaf::isShape(label)` (kernel/document query, abstracted). -/
def XCaf.isShape (label : TDF_Label) : Bool :=
  label.isShape

/-- `XCaf::shape(label)` (kernel/document query, abstracted). -/
def XCaf.shape (label : TDF_Label) : TopoDS_Shape :=
  label.shape

/-- `CafUtils::hasAttribute<TDataXtd_Triangulation>(label)`; the template
wrapper instantiates `CafUtils::hasAttribute(label, guid)` from
`src/base/caf_utils.cpp`, which reports whether `FindAttribute` succeeds. -/
def CafUtils.hasTriangulationAttribute (label : TDF_Label) : Bool :=
  label.triangulationAttr.isSome

/-- `CafUtils::findAttribute<TDataXtd_Triangulation>(label)` followed by
`->Get()`: `none` when the attribute is absent, otherwise the attribute's
stored (possibly null) triangulation handle. -/
def CafUtils.findTriangulationAttribute (label : TDF_Label) : Option (Option Nat) :=
  label.triangulationAttr

/-- `AIS_DisplayMode::AIS_WireFrame`. -/
def AIS_WireFrame : Int := 0
/-- `AIS_DisplayMode::AIS_Shaded`. -/
def AIS_Shaded : Int := 1

/-- `GraphicsShapeEntityDriver::DisplayMode_Wireframe` (enumerator values of
the driver's `DisplayMode` enum, declared in `graphics_entity_driver.h`). -/
def DisplayMode_Wireframe : Int := 0
/-- `GraphicsShapeEntityDriver::DisplayMode_HiddenLineRemoval`. -/
def DisplayMode_HiddenLineRemoval : Int := 1
/-- `GraphicsShapeEntityDriver::DisplayMode_Shaded`. -/
def DisplayMode_Shaded : Int := 2
/-- `GraphicsShapeEntityDriver::DisplayMode_ShadedWithFaceBoundary`. -/
def DisplayMode_ShadedWithFaceBoundary : Int := 3

/-- `MeshVS_DisplayModeFlags::MeshVS_DMF_WireFrame`. -/
def MeshVS_DMF_WireFrame : Int := 1
/-- `MeshVS_DisplayModeFlags::MeshVS_DMF_Shading`. -/
def MeshVS_DMF_Shading : Int := 2
/-- `MeshVS_DisplayModeFlags::MeshVS_DMF_Shrink`. -/
def MeshVS_DMF_Shrink : Int := 3

/-- `Prs3d_TypeOfHLR::Prs3d_TOH_NotSet`. -/
def Prs3d_TOH_NotSet : Int := 0
/-- `Prs3d_TypeOfHLR::Prs3d_TOH_PolyAlgo`. -/
def Prs3d_TOH_PolyAlgo : Int := 1

/-- Modelled from the spec: the `Enumeration` property-reflection class
(`src/base/enumeration.h` is not under `src/`), reduced to the list of the
enumerator values of its items ("property-reflection wrappers around kernel
reader/writer parameters"). -/
structure Enumeration where
  values : List Int
  deriving DecidableEq, BEq

/-- Index of the first occurrence of `v` in the list, counting from `i`,
or `-1` when `v` does not occur. -/
def findIndexFrom (v : Int) : Int → List Int → Int
  | _, [] => -1
  | i, x :: rest => if x == v then i else findIndexFrom v (i + 1) rest

/-- Modelled from the spec: `Enumeration::findIndex(value)` returns the index
of the item carrying `value`, or `-1` when no item does (usage at
`graphics_entity_driver.cpp:38`: `findIndex(mode) == -1` detects an unknown
display mode). -/
def Enumeration.findIndex (e : Enumeration) (v : Int) : Int :=
  findIndexFrom v 0 e.values

/-- The two concrete `GraphicsEntityDriver` subclasses; the application
instantiates each exactly once, so pointer identity of a driver coincides
with its class. -/
inductive GraphicsEntityDriver
  | shapeDriver
  | meshDriver
  deriving DecidableEq, BEq

/-- The display-mode `Enumeration` each driver registers in its constructor
(`GraphicsShapeEntityDriver::GraphicsShapeEntityDriver`,
`GraphicsMeshEntityDriver::GraphicsMeshEntityDriver`). -/
def GraphicsEntityDriver.displayModes : GraphicsEntityDriver → Enumeration
  | .shapeDriver =>
      ⟨[DisplayMode_Wireframe, DisplayMode_HiddenLineRemoval,
        DisplayMode_Shaded, DisplayMode_ShadedWithFaceBoundary]⟩
  | .meshDriver =>
      ⟨[MeshVS_DMF_WireFrame, MeshVS_DMF_Shading, MeshVS_DMF_Shrink]⟩

/-- `GraphicsEntityDriver::Support` (`None` / `Partial` / `Complete`). -/
inductive Support
  | noSupport
  | partialSupport
  | completeSupport
  deriving DecidableEq, BEq

/-- What kind of AIS interactive object an entity holds: an
`XCAFPrs_AISObject` built over a label, or a `MeshVS_Mesh` whose data source
wraps a `Poly_Triangulation`. -/
inductive AisObjectKind
  | xcafPrs (label : TDF_Label)
  | meshVs (polyTri : Nat)
  deriving DecidableEq, BEq

/-- An AIS interactive object, abstracted to the presentation state the
repository code reads or writes: its display mode, the drawer's
face-boundary / iso-on-triangulation flags (shape objects), and the mesh
drawer's show-edges / show-nodes flags (mesh objects). -/
structure AisObject where
  kind : AisObjectKind
  displayMode : Int
  faceBoundaryDraw : Bool
  isoOnTriangulation : Bool
  showEdges : Bool
  showNodes : Bool
  deriving DecidableEq, BEq

/-- Modelled from the spec: `GraphicsEntity` (`graphics_entity.h` is not under
`src/`), the value type that drivers map document nodes onto ("graphics-entity
drivers that map CAD-document nodes to displayable scene objects").  It stores
the label, the driver pointer and the AIS object handle (each null by
default), plus the scene-assignment and visibility state set by
`GuiDocument::mapGraphics`. -/
structure GraphicsEntity where
  label : Option TDF_Label := none
  driverPtr : Option GraphicsEntityDriver := none
  aisObject : Option AisObject := none
  sceneSet : Bool := false
  visible : Bool := false
  deriving DecidableEq, BEq

/-- `GraphicsEntityDriver::initEntity` (graphics_entity_driver.cpp:48-53):
stores the label and the driver pointer into the entity. -/
def GraphicsEntityDriver.initEntity
    (d : GraphicsEntityDriver) (e : GraphicsEntity) (label : TDF_Label) : GraphicsEntity :=
  { e with label := some label, driverPtr := some d }

/-- `GraphicsEntityDriver::setEntityAisObject`. -/
def GraphicsEntityDriver.setEntityAisObject
    (e : GraphicsEntity) (obj : AisObject) : GraphicsEntity :=
  { e with aisObject := some obj }

/-- Modelled from the spec: `GraphicsEntity::setDisplayMode`
(`graphics_entity.h` is not under `src/`) delegates to the AIS object's
`SetDisplayMode`; calling it on an entity with a null AIS object would
dereference a null handle, embedded as an `.error`. -/
def GraphicsEntity.setDisplayMode (e : GraphicsEntity) (mode : Int) :
    Except String GraphicsEntity :=
  match e.aisObject with
  | none => .error "null AIS object"
  | some obj => .ok { e with aisObject := some { obj with displayMode := mode } }

/-- Modelled from the spec: `GraphicsEntity::displayMode`
(`graphics_entity.h` is not under `src/`) reads the AIS object's
`DisplayMode()`; null AIS object embedded as an `.error`. -/
def GraphicsEntity.displayMode (e : GraphicsEntity) : Except String Int :=
  match e.aisObject with
  | none => .error "null AIS object"
  | some obj => .ok obj.displayMode

/-- `GraphicsEntityDriver::throwIf_invalidDisplayMode`
(graphics_entity_driver.cpp:36-40). -/
def GraphicsEntityDriver.throwIf_invalidDisplayMode
    (d : GraphicsEntityDriver) (mode : Int) : Except String Unit :=
  if d.displayModes.findIndex mode = -1 then
    .error "Invalid display mode"
  else
    .ok ()

/-- `GraphicsEntityDriver::throwIf_differentDriver`
(graphics_entity_driver.cpp:42-46). -/
def GraphicsEntityDriver.throwIf_differentDriver
    (d : GraphicsEntityDriver) (e : GraphicsEntity) : Except String Unit :=
  if e.driverPtr ≠ some d then
    .error "Invalid driver for graphics entity"
  else
    .ok ()

/-- `GraphicsShapeEntityDriver::supportStatus`
(graphics_entity_driver.cpp:72-85).  The `TDataXtd_Triangulation` branch of
the source is an empty `if` body (its `return Support::Partial` is commented
out), so it contributes nothing. -/
def GraphicsShapeEntityDriver.supportStatus (label : TDF_Label) : Support :=
  if XCaf.isShape label then
    Support.completeSupport
  else
    Support.noSupport

/-- `GraphicsShapeEntityDriver::createEntity`
(graphics_entity_driver.cpp:87-104).  For a shape label it builds an
`XCAFPrs_AISObject` over the label, shaded, with face-boundary drawing and
iso-on-triangulation enabled; the `TDataXtd_Triangulation` branch of the
source has an empty body, so any other label yields a null AIS object. -/
def GraphicsShapeEntityDriver.createEntity (label : TDF_Label) : GraphicsEntity :=
  let entity : GraphicsEntity := {}
  let entity := GraphicsEntityDriver.initEntity .shapeDriver entity label
  if XCaf.isShape label then
    GraphicsEntityDriver.setEntityAisObject entity
      { kind := .xcafPrs label
        displayMode := AIS_Shaded
        faceBoundaryDraw := true
        isoOnTriangulation := true
        showEdges := false
        showNodes := false }
  else
    entity

/-- `GraphicsMeshEntityDriver::supportStatus`
(graphics_entity_driver.cpp:227-239). -/
def GraphicsMeshEntityDriver.supportStatus (label : TDF_Label) : Support :=
  if CafUtils.hasTriangulationAttribute label then
    Support.completeSupport
  else if XCaf.isShape label then
    (if (XCaf.shape label).shapeType = TopAbs_ShapeEnum.face then
      Support.partialSupport
    else
      Support.noSupport)
  else
    Support.noSupport

/-- `GraphicsMeshEntityDriver::DefaultValues` (`showEdges` / `showNodes`
defaults used when configuring the mesh drawer). -/
structure MeshDefaultValues where
  showEdges : Bool
  showNodes : Bool
  deriving DecidableEq, BEq

/-- `GraphicsMeshEntityDriver::createEntity`
(graphics_entity_driver.cpp:241-284): the triangulation is taken from the
`TDataXtd_Triangulation` attribute when present, otherwise from the
`BRep_TFace` of a FACE shape; when one is found (non-null), a `MeshVS_Mesh`
is built over it, shaded, configured from the driver's default values. -/
def GraphicsMeshEntityDriver.createEntity
    (dv : MeshDefaultValues) (label : TDF_Label) : GraphicsEntity :=
  let entity : GraphicsEntity := {}
  let entity := GraphicsEntityDriver.initEntity .meshDriver entity label
  let polyTri : Option Nat :=
    match CafUtils.findTriangulationAttribute label with
    | some t => t
    | none =>
      if XCaf.isShape label then
        (if (XCaf.shape label).shapeType = TopAbs_ShapeEnum.face then
          (XCaf.shape label).tfaceTriangulation
        else
          none)
      else
        none
  match polyTri with
  | some pt =>
      GraphicsEntityDriver.setEntityAisObject entity
        { kind := .meshVs pt
          displayMode := MeshVS_DMF_Shading
          faceBoundaryDraw := false
          isoOnTriangulation := false
          showEdges := dv.showEdges
          showNodes := dv.showNodes }
  | none => entity

/-- Modelled from the spec: `GraphicsScene` (`graphics_scene.h` is not under
`src/`), reduced to the presentation state the driver code reads or writes:
the default drawer's type-of-HLR and draw-hidden-line flag (with
`hiddenLineDrawingOn` reading the latter), the computed-mode flag of each
defined view, and the list of displayed AIS objects. -/
structure GraphicsScene where
  typeOfHLR : Int := Prs3d_TOH_NotSet
  drawHiddenLine : Bool := false
  viewsComputedMode : List Bool := []
  displayedObjects : List AisObject := []
  deriving DecidableEq, BEq

/-- `GraphicsShapeEntityDriver::applyDisplayMode`
(graphics_entity_driver.cpp:106-140): after the driver and mode checks, the
HLR mode configures the scene drawer for hidden-line removal and sets every
view's computed mode; any other mode resets those, then sets the AIS
object's display mode (wireframe or shaded) and the face-boundary flag when
they differ from the requested state. -/
def GraphicsShapeEntityDriver.applyDisplayMode
    (entity : GraphicsEntity) (scene : GraphicsScene) (mode : Int) :
    Except String (GraphicsEntity × GraphicsScene) :=
  match GraphicsEntityDriver.throwIf_differentDriver .shapeDriver entity with
  | .error msg => .error msg
  | .ok _ =>
  match GraphicsEntityDriver.throwIf_invalidDisplayMode .shapeDriver mode with
  | .error msg => .error msg
  | .ok _ =>
  if mode = DisplayMode_HiddenLineRemoval then
    let scene :=
      { scene with
        typeOfHLR := Prs3d_TOH_PolyAlgo
        drawHiddenLine := true
        viewsComputedMode := scene.viewsComputedMode.map (fun _ => true) }
    .ok (entity, scene)
  else
    let scene :=
      { scene with
        typeOfHLR := Prs3d_TOH_NotSet
        drawHiddenLine := false
        viewsComputedMode := scene.viewsComputedMode.map (fun _ => false) }
    let aisDispMode : Int := if mode = DisplayMode_Wireframe then AIS_WireFrame else AIS_Shaded
    let showFaceBounds : Bool := mode = DisplayMode_ShadedWithFaceBoundary
    match entity.aisObject with
    | none => .error "null AIS object"
    | some obj =>
      let e1 :=
        if obj.displayMode ≠ aisDispMode then
          { entity with aisObject := some { obj with displayMode := aisDispMode } }
        else
          entity
      let e2 :=
        if obj.faceBoundaryDraw ≠ showFaceBounds then
          (match e1.aisObject with
           | some o => { e1 with aisObject := some { o with faceBoundaryDraw := showFaceBounds } }
           | none => e1)
        else
          e1
      .ok (e2, scene)

/-- `GraphicsShapeEntityDriver::currentDisplayMode`
(graphics_entity_driver.cpp:142-159). -/
def GraphicsShapeEntityDriver.currentDisplayMode
    (entity : GraphicsEntity) (scene : GraphicsScene) : Except String Int :=
  match GraphicsEntityDriver.throwIf_differentDriver .shapeDriver entity with
  | .error msg => .error msg
  | .ok _ =>
  if scene.drawHiddenLine then
    .ok DisplayMode_HiddenLineRemoval
  else
    match entity.aisObject with
    | none => .error "null AIS object"
    | some obj =>
      if obj.displayMode = AIS_WireFrame then
        .ok DisplayMode_Wireframe
      else if obj.displayMode = AIS_Shaded then
        .ok (if obj.faceBoundaryDraw then DisplayMode_ShadedWithFaceBoundary else DisplayMode_Shaded)
      else
        .ok (-1)

/-- `GraphicsMeshEntityDriver::applyDisplayMode`
(graphics_entity_driver.cpp:286-291). -/
def GraphicsMeshEntityDriver.applyDisplayMode
    (entity : GraphicsEntity) (mode : Int) : Except String GraphicsEntity :=
  match GraphicsEntityDriver.throwIf_differentDriver .meshDriver entity with
  | .error msg => .error msg
  | .ok _ =>
  match GraphicsEntityDriver.throwIf_invalidDisplayMode .meshDriver mode with
  | .error msg => .error msg
  | .ok _ => entity.setDisplayMode mode

/-- `GraphicsMeshEntityDriver::currentDisplayMode`
(graphics_entity_driver.cpp:293-297). -/
def GraphicsMeshEntityDriver.currentDisplayMode
    (entity : GraphicsEntity) : Except String Int :=
  match GraphicsEntityDriver.throwIf_differentDriver .meshDriver entity with
  | .error msg => .error msg
  | .ok _ => entity.displayMode

/-- An aggregate bounding box (`Bnd_Box`): void, or an axis-aligned box given
by its corners (coordinates as integers, a faithful discretisation for the
bookkeeping the claims are about). -/
inductive Bnd_Box
  | voidBox
  | box (x1 y1 z1 x2 y2 z2 : Int)
  deriving DecidableEq, BEq

/-- Modelled from the spec: `BndUtils::add` (`src/base/bnd_utils.cpp` is not
under `src/`) — "recomputes an aggregate bounding box" by accumulating
entity boxes, i.e. `Bnd_Box::Add`: the union of two boxes, with the void box
as neutral element. -/
def BndUtils.add : Bnd_Box → Bnd_Box → Bnd_Box
  | Bnd_Box.voidBox, b => b
  | a, Bnd_Box.voidBox => a
  | Bnd_Box.box ax1 ay1 az1 ax2 ay2 az2, Bnd_Box.box bx1 by1 bz1 bx2 by2 bz2 =>
      Bnd_Box.box (min ax1 bx1) (min ay1 by1) (min az1 bz1)
        (max ax2 bx2) (max ay2 by2) (max az2 bz2)

/-- `GuiDocument::GraphicsItem` (gui_document.h): one side-table entry,
pairing a graphics entity with the id of the document entity tree node it
was mapped from.  (The `gpxTreeNodeMapping` member is selection plumbing not
referenced by any claim and is omitted.) -/
structure GraphicsItem where
  graphicsEntity : GraphicsEntity
  entityTreeNodeId : Nat
  deriving DecidableEq, BEq

/-- The `GuiDocument` state touched by the scene-synchronization code: the
side table `m_vecGraphicsItem`, the aggregate bounding box
`m_gpxBoundingBox`, and the set of AIS objects displayed in the scene
`m_gfxScene` (as a list). -/
structure GuiDocumentState where
  vecGraphicsItem : List GraphicsItem := []
  gpxBoundingBox : Bnd_Box := Bnd_Box.voidBox
  sceneDisplayed : List AisObject := []
  deriving DecidableEq, BEq

/-- `GuiDocument::findGraphicsItem` (gui_document.cpp:355-362): the first
side-table entry whose `entityTreeNodeId` equals the given id, if any. -/
def GuiDocument.findGraphicsItem
    (st : GuiDocumentState) (entityTreeNodeId : Nat) : Option GraphicsItem :=
  st.vecGraphicsItem.find? (fun item => item.entityTreeNodeId == entityTreeNodeId)

/-- `GuiDocument::findGraphicsEntity` (gui_document.cpp:106-110): the found
entry's graphics entity, or a default-constructed `GraphicsEntity` (null
label, null driver, null AIS object) when no entry matches. -/
def GuiDocument.findGraphicsEntity
    (st : GuiDocumentState) (entityTreeNodeId : Nat) : GraphicsEntity :=
  match GuiDocument.findGraphicsItem st entityTreeNodeId with
  | some gfxItem => gfxItem.graphicsEntity
  | none => {}

/-- `GuiDocument::mapGraphics` (gui_document.cpp:321-353), parameterized by
`createEntityOfNode` — the composition of the document node-id-to-label map
with `GraphicsEntityDriverTable::createEntity` (the table's dispatch lives in
`graphics_entity_driver_table.cpp`, not under `src/`; the claims quantify
over whatever entity it produces) — and by `bboxOf`, abstracting
`GraphicsUtils::AisObject_boundingBox`.  When the created entity's AIS
object is null the function returns without touching anything; otherwise the
entity is attached to the scene and made visible, its box is added to the
aggregate bounding box, and a new side-table item is appended. -/
def GuiDocument.mapGraphics
    (createEntityOfNode : Nat → GraphicsEntity)
    (bboxOf : Option AisObject → Bnd_Box)
    (st : GuiDocumentState) (entityTreeNodeId : Nat) : GuiDocumentState :=
  let gfxEntity := createEntityOfNode entityTreeNodeId
  match gfxEntity.aisObject with
  | none => st
  | some obj =>
    let gfxEntity := { gfxEntity with sceneSet := true, visible := true }
    let item : GraphicsItem :=
      { graphicsEntity := gfxEntity, entityTreeNodeId := entityTreeNodeId }
    { st with
      sceneDisplayed := st.sceneDisplayed ++ [obj]
      gpxBoundingBox := BndUtils.add st.gpxBoundingBox (bboxOf gfxEntity.aisObject)
      vecGraphicsItem := st.vecGraphicsItem ++ [item] }

/-- `GuiDocument::onDocumentEntityAdded` (gui_document.cpp:295-299): maps the
new entity (the emitted Qt signal carries no state and is dropped). -/
def GuiDocument.onDocumentEntityAdded
    (createEntityOfNode : Nat → GraphicsEntity)
    (bboxOf : Option AisObject → Bnd_Box)
    (st : GuiDocumentState) (entityTreeNodeId : Nat) : GuiDocumentState :=
  GuiDocument.mapGraphics createEntityOfNode bboxOf st entityTreeNodeId

/-- `GuiDocument::onDocumentEntityAboutToBeDestroyed`
(gui_document.cpp:301-319): when an item with the given id is found, its AIS
object is erased from the scene, the item is erased from the side table (at
the index of the first match, i.e. `List.eraseP`), and the aggregate
bounding box is recomputed from scratch over the remaining items; when no
item matches, nothing happens. -/
def GuiDocument.onDocumentEntityAboutToBeDestroyed
    (bboxOf : Option AisObject → Bnd_Box)
    (st : GuiDocumentState) (entityTreeNodeId : Nat) : GuiDocumentState :=
  match GuiDocument.findGraphicsItem st entityTreeNodeId with
  | none => st
  | some gfxItem =>
    let scene' :=
      match gfxItem.graphicsEntity.aisObject with
      | some obj => st.sceneDisplayed.erase obj
      | none => st.sceneDisplayed
    let items' :=
      st.vecGraphicsItem.eraseP (fun item => item.entityTreeNodeId == entityTreeNodeId)
    let bbox' :=
      items'.foldl
        (fun b item => BndUtils.add b (bboxOf item.graphicsEntity.aisObject))
        Bnd_Box.voidBox
    { vecGraphicsItem := items'
      gpxBoundingBox := bbox'
      sceneDisplayed := scene' }

/-- The document mutation signals `GuiDocument` reacts to
(`Document::entityAdded`, `Document::entityAboutToBeDestroyed`). -/
inductive DocEvent
  | entityAdded (entityTreeNodeId : Nat)
  | entityAboutToBeDestroyed (entityTreeNodeId : Nat)
  deriving DecidableEq, BEq

/-- One signal dispatch of `GuiDocument`. -/
def GuiDocument.step
    (createEntityOfNode : Nat → GraphicsEntity)
    (bboxOf : Option AisObject → Bnd_Box)
    (st : GuiDocumentState) : DocEvent → GuiDocumentState
  | DocEvent.entityAdded id =>
      GuiDocument.onDocumentEntityAdded createEntityOfNode bboxOf st id
  | DocEvent.entityAboutToBeDestroyed id =>
      GuiDocument.onDocumentEntityAboutToBeDestroyed bboxOf st id

/-- A `GuiDocument` state reached from the empty state by a sequence of
document signals (the constructor's initial `mapGraphics` loop over existing
entities is the corresponding prefix of `entityAdded` events). -/
def GuiDocument.run
    (createEntityOfNode : Nat → GraphicsEntity)
    (bboxOf : Option AisObject → Bnd_Box)
    (trace : List DocEvent) : GuiDocumentState :=
  trace.foldl (GuiDocument.step createEntityOfNode bboxOf) {}

/-- Reference bookkeeping of the live ids: fold of the trace keeping the ids
whose creation produced a non-null AIS object (`ok`) and that were not
destroyed since. -/
def liveIdsAux (ok : Nat → Bool) : List Nat → List DocEvent → List Nat
  | live, [] => live
  | live, DocEvent.entityAdded id :: rest =>
      liveIdsAux ok (if ok id then live ++ [id] else live) rest
  | live, DocEvent.entityAboutToBeDestroyed id :: rest =>
      liveIdsAux ok (live.eraseP (fun x => x == id)) rest

/-- Ids live at the end of a trace started from no entities. -/
def liveIds (ok : Nat → Bool) (trace : List DocEvent) : List Nat :=
  liveIdsAux ok [] trace

/-- A trace is well-formed when every `entityAdded` signal carries an id not
currently live (the document allocates fresh tree-node ids for new
entities). -/
def addsFresh (ok : Nat → Bool) : List Nat → List DocEvent → Bool
  | _, [] => true
  | live, DocEvent.entityAdded id :: rest =>
      !live.contains id && addsFresh ok (if ok id then live ++ [id] else live) rest
  | live, DocEvent.entityAboutToBeDestroyed id :: rest =>
      addsFresh ok (live.eraseP (fun x => x == id)) rest

/-- The bounding box obtained by folding `BndUtils::add` over the boxes of
the AIS objects of a list of graphics items, starting from a void box. -/
def computeBBox (bboxOf : Option AisObject → Bnd_Box) (items : List GraphicsItem) : Bnd_Box :=
  items.foldl (fun b item => BndUtils.add b (bboxOf item.graphicsEntity.aisObject)) Bnd_Box.voidBox

/-- `OccVrmlWriter` (io_occ_vrml.cpp), reduced to the state `writeFile`
consults: `m_scene`, the VRML scene built by `transfer` (an opaque handle,
null before any successful transfer). -/
structure OccVrmlWriter where
  m_scene : Option Nat := none
  deriving DecidableEq, BEq

/-- A freshly constructed `OccVrmlWriter`: its scene pointer is null. -/
def OccVrmlWriter.init : OccVrmlWriter := {}

/-- `OccVrmlWriter::writeFile` (io_occ_vrml.cpp:80-94): `false` when the
scene is null; otherwise the scene is streamed to the file and the result is
the stream's status, abstracted by `streamOk` (the opened stream's success). -/
def OccVrmlWriter.writeFile (w : OccVrmlWriter) (streamOk : Bool) : Bool :=
  match w.m_scene with
  | none => false
  | some _ => streamOk

/-- An `ApplicationItem` (`src/base/application_item.h` is not under `src/`):
a whole document, a document tree node (carrying its document and its
label), or an item of neither kind.  Documents are opaque `Nat` ids;
`appItem.document().get()` pointer equality is id equality. -/
inductive ApplicationItem
  | document (doc : Nat)
  | documentTreeNode (doc : Nat) (label : TDF_Label)
  | other
  deriving DecidableEq, BEq

/-- Whether an item is a document or a document tree node. -/
def ApplicationItem.isRelevant : ApplicationItem → Bool
  | ApplicationItem.document _ => true
  | ApplicationItem.documentTreeNode _ _ => true
  | ApplicationItem.other => false

/-- The document of an item (`appItem.document()`), when it has one. -/
def ApplicationItem.docOf : ApplicationItem → Option Nat
  | ApplicationItem.document d => some d
  | ApplicationItem.documentTreeNode d _ => some d
  | ApplicationItem.other => none

/-- `OccGltfWriter` (io_occ_gltf_writer.cpp), reduced to the state that
`transfer` writes and `writeFile` consults: the document handle `m_document`
and the root-label sequence `m_seqRootLabel`. -/
structure OccGltfWriter where
  m_document : Option Nat := none
  m_seqRootLabel : List TDF_Label := []
  deriving DecidableEq, BEq

/-- A freshly constructed `OccGltfWriter`: its document handle is null. -/
def OccGltfWriter.init : OccGltfWriter := {}

/-- The loop body of `OccGltfWriter::transfer` (io_occ_gltf_writer.cpp:66-87)
over the accumulator `(m_document, m_seqRootLabel)`: a document item is taken
as the document when none is set yet; a tree-node item first sets the
document when none is set yet, then appends its label when its document
equals the current one; other items are skipped. -/
def OccGltfWriter.transferLoop :
    Option Nat × List TDF_Label → List ApplicationItem → Option Nat × List TDF_Label
  | acc, [] => acc
  | (mdoc, labels), ApplicationItem.document d :: rest =>
      OccGltfWriter.transferLoop
        (if mdoc.isNone then (some d, labels) else (mdoc, labels)) rest
  | (mdoc, labels), ApplicationItem.documentTreeNode d lbl :: rest =>
      let mdoc' := if mdoc.isNone then some d else mdoc
      let labels' := if mdoc' = some d then labels ++ [lbl] else labels
      OccGltfWriter.transferLoop (mdoc', labels') rest
  | (mdoc, labels), ApplicationItem.other :: rest =>
      OccGltfWriter.transferLoop (mdoc, labels) rest

/-- `OccGltfWriter::transfer` (io_occ_gltf_writer.cpp:66-87): clears the
document handle and the root-label sequence, runs the loop over the span,
and returns whether a document was found (paired with the updated writer). -/
def OccGltfWriter.transfer
    (w : OccGltfWriter) (spanAppItem : List ApplicationItem) : Bool × OccGltfWriter :=
  let acc := OccGltfWriter.transferLoop (none, []) spanAppItem
  (acc.fst.isSome, { w with m_document := acc.fst, m_seqRootLabel := acc.snd })

/-- `OccGltfWriter::writeFile` (io_occ_gltf_writer.cpp:89-102): `false` when
the document handle is null; otherwise the result of the kernel writer's
`Perform` — the overload without root labels when the sequence is empty,
the one with root labels otherwise — abstracted by `performDoc` /
`performRoots`. -/
def OccGltfWriter.writeFile
    (w : OccGltfWriter) (performDoc performRoots : Bool) : Bool :=
  match w.m_document with
  | none => false
  | some _ =>
    if w.m_seqRootLabel.isEmpty then performDoc else performRoots

/-- A sample shape label (a solid, no triangulation attribute). -/
def sampleShapeLabel : TDF_Label :=
  { isShape := true
    shape := { shapeType := TopAbs_ShapeEnum.solid, tfaceTriangulation := none }
    triangulationAttr := none }

/-- A sample label carrying only a `TDataXtd_Triangulation` attribute (not a
shape). -/
def sampleTriLabel : TDF_Label :=
  { isShape := false
    shape := { shapeType := TopAbs_ShapeEnum.anyShape, tfaceTriangulation := none }
    triangulationAttr := some (some 7) }

/-- A sample FACE shape label whose `BRep_TFace` stores a triangulation. -/
def sampleFaceLabel : TDF_Label :=
  { isShape := true
    shape := { shapeType := TopAbs_ShapeEnum.face, tfaceTriangulation := some 11 }
    triangulationAttr := none }

/-- A mesh entity created by the mesh driver over the triangulation-only
label (its AIS object is a `MeshVS_Mesh`, non-null). -/
def sampleMeshEntity : GraphicsEntity :=
  GraphicsMeshEntityDriver.createEntity { showEdges := true, showNodes := false } sampleTriLabel

/-- The graphics entity stored in the side table for a node id: the entity
produced by the driver table, attached to the scene and made visible
(`GuiDocument::mapGraphics`). -/
def mappedEntity (createEntityOfNode : Nat → GraphicsEntity) (id : Nat) : GraphicsEntity :=
  { createEntityOfNode id with sceneSet := true, visible := true }

/-- The side-table item that `mapGraphics` appends for a node id (when the
created entity's AIS object is non-null). -/
def mappedItem (createEntityOfNode : Nat → GraphicsEntity) (id : Nat) : GraphicsItem :=
  { graphicsEntity := mappedEntity createEntityOfNode id, entityTreeNodeId := id }

/-- Invariant of a side-table entry list: the entity tree node ids of its
entries are pairwise distinct, and every entry holds the (non-null AIS
object) entity that `mapGraphics` produced for its id. -/
def tableInvL (createEntityOfNode : Nat → GraphicsEntity) (items : List GraphicsItem) : Prop :=
  (items.map (fun it => it.entityTreeNodeId)).Nodup
  ∧ ∀ it ∈ items,
      (createEntityOfNode it.entityTreeNodeId).aisObject.isSome = true
      ∧ it.graphicsEntity = mappedEntity createEntityOfNode it.entityTreeNodeId

/-- Invariant of the `GuiDocument` side table (its entry list satisfies
`tableInvL`). -/
def tableInv (createEntityOfNode : Nat → GraphicsEntity) (st : GuiDocumentState) : Prop :=
  tableInvL createEntityOfNode st.vecGraphicsItem

/-- A sample entity-creation function: every node maps to the shape entity of
the sample shape label (non-null AIS object). -/
def sampleCreateEntityOfNode : Nat → GraphicsEntity :=
  fun _ => GraphicsShapeEntityDriver.createEntity sampleShapeLabel

/-- A sample bounding-box function for AIS objects. -/
def sampleBBoxOf : Option AisObject → Bnd_Box :=
  fun _ => Bnd_Box.box 0 0 0 1 1 1

/-- A sample document signal trace: two entities added, the first destroyed. -/
def sampleTrace : List DocEvent :=
  [DocEvent.entityAdded 1, DocEvent.entityAdded 2, DocEvent.entityAboutToBeDestroyed 1]

/-- The sample `GuiDocument` state after the two additions. -/
def sampleState : GuiDocumentState :=
  GuiDocument.run sampleCreateEntityOfNode sampleBBoxOf
    [DocEvent.entityAdded 1, DocEvent.entityAdded 2]

/-- The first graphics item of the sample state (mapped for node id 1). -/
def sampleItem1 : GraphicsItem :=
  { graphicsEntity := mappedEntity sampleCreateEntityOfNode 1, entityTreeNodeId := 1 }

/-- A sample span of application items for the glTF writer: a non-document
item, then tree nodes of document 5 around a document item for document 9
and a tree node of document 9. -/
def sampleSpan : List ApplicationItem :=
  [ApplicationItem.other,
   ApplicationItem.documentTreeNode 5 sampleShapeLabel,
   ApplicationItem.document 9,
   ApplicationItem.documentTreeNode 9 sampleTriLabel,
   ApplicationItem.documentTreeNode 5 sampleFaceLabel]

/-- Lower bound of `findIndexFrom`: searching for a present value from a
non-negative start index yields a non-negative index. -/
theorem findIndexFrom_nonneg_of_mem (v : Int) (l : List Int) (hmem : v ∈ l) :
    ∀ i : Int, 0 ≤ i → 0 ≤ findIndexFrom v i l := by
  induction l with
  | nil => cases hmem
  | cons x t ih =>
    intro i hi
    unfold findIndexFrom
    by_cases hx : x == v
    · simpa [hx] using hi
    · rcases List.mem_cons.mp hmem with heq | ht
      · exact absurd (by simp [heq]) hx
      · simpa [hx] using ih ht (i + 1) (by omega)

/-- `findIndexFrom` returns `-1` exactly on absent values. -/
theorem findIndexFrom_of_not_mem (v : Int) (l : List Int) (hmem : v ∉ l) :
    ∀ i : Int, findIndexFrom v i l = -1 := by
  induction l with
  | nil => intro i; rfl
  | cons x t ih =>
    intro i
    unfold findIndexFrom
    have hx : (x == v) = false := by
      simp only [beq_eq_false_iff_ne]
      intro h
      exact hmem (by simp [h])
    simp only [hx, if_false]
    exact ih (fun h => hmem (List.mem_cons_of_mem x h)) (i + 1)

/-- `Enumeration::findIndex` returns `-1` precisely when the value is not
among the enumeration's items. -/
theorem Enumeration.findIndex_eq_neg_one_iff (e : Enumeration) (v : Int) :
    e.findIndex v = -1 ↔ v ∉ e.values := by
  constructor
  · intro h hm
    have := findIndexFrom_nonneg_of_mem v e.values hm 0 (by omega)
    unfold Enumeration.findIndex at h
    omega
  · intro h
    exact findIndexFrom_of_not_mem v e.values h 0

/-- Claim C1: `GraphicsShapeEntityDriver::supportStatus` returns
`Support::Complete` exactly when `XCaf::isShape(label)` holds and
`Support::None` otherwise; in particular a label carrying only a
`TDataXtd_Triangulation` attribute (not a shape) yields `Support::None`. -/
theorem c1_shape_driver_support_status (label : TDF_Label) :
    GraphicsShapeEntityDriver.supportStatus label =
      (if XCaf.isShape label then Support.completeSupport else Support.noSupport)
    ∧ (XCaf.isShape label = false → CafUtils.hasTriangulationAttribute label = true →
        GraphicsShapeEntityDriver.supportStatus label = Support.noSupport) := by
  refine ⟨rfl, ?_⟩
  intro h _
  simp [GraphicsShapeEntityDriver.supportStatus, h]

/-- Witness for C1 at the triangulation-only label. -/
theorem c1_shape_driver_support_status_witness :
    XCaf.isShape sampleTriLabel = false
    ∧ CafUtils.hasTriangulationAttribute sampleTriLabel = true
    ∧ GraphicsShapeEntityDriver.supportStatus sampleTriLabel = Support.noSupport :=
  ⟨by decide, by decide,
   (c1_shape_driver_support_status sampleTriLabel).2 (by decide) (by decide)⟩

/-- Claim C2: `GraphicsMeshEntityDriver::supportStatus` returns
`Support::Complete` for a label with a `TDataXtd_Triangulation` attribute,
otherwise `Support::Partial` for a shape label of type `TopAbs_FACE`,
otherwise `Support::None`. -/
theorem c2_mesh_driver_support_status (label : TDF_Label) :
    GraphicsMeshEntityDriver.supportStatus label =
      (if CafUtils.hasTriangulationAttribute label then
        Support.completeSupport
      else if XCaf.isShape label ∧ (XCaf.shape label).shapeType = TopAbs_ShapeEnum.face then
        Support.partialSupport
      else
        Support.noSupport) := by
  by_cases h1 : CafUtils.hasTriangulationAttribute label
  · simp [GraphicsMeshEntityDriver.supportStatus, h1]
  · by_cases h2 : XCaf.isShape label
    · by_cases h3 : (XCaf.shape label).shapeType = TopAbs_ShapeEnum.face
      · simp [GraphicsMeshEntityDriver.supportStatus, h1, h2, h3]
      · simp [GraphicsMeshEntityDriver.supportStatus, h1, h2, h3]
    · simp [GraphicsMeshEntityDriver.supportStatus, h1, h2]

/-- Claim C3: `GraphicsShapeEntityDriver::createEntity` returns an entity
whose stored label is the given label, whose driver pointer is the shape
driver itself, and whose AIS object is non-null exactly when
`XCaf::isShape(label)` holds. -/
theorem c3_shape_driver_create_entity (label : TDF_Label) :
    (GraphicsShapeEntityDriver.createEntity label).label = some label
    ∧ (GraphicsShapeEntityDriver.createEntity label).driverPtr
        = some GraphicsEntityDriver.shapeDriver
    ∧ ((GraphicsShapeEntityDriver.createEntity label).aisObject.isSome
        ↔ XCaf.isShape label = true) := by
  unfold GraphicsShapeEntityDriver.createEntity GraphicsEntityDriver.initEntity
    GraphicsEntityDriver.setEntityAisObject
  by_cases h : XCaf.isShape label = true <;> simp [h]

/-- Claim C7: calling `writeFile` on an exporter before any successful
transfer fails without writing — `OccVrmlWriter::writeFile` returns `false`
on a null scene and `OccGltfWriter::writeFile` returns `false` on a null
document handle (and both handles are null on a fresh writer). -/
theorem c7_write_file_null_guard (w : OccVrmlWriter) (streamOk : Bool)
    (g : OccGltfWriter) (performDoc performRoots : Bool) :
    (w.m_scene = none → OccVrmlWriter.writeFile w streamOk = false)
    ∧ (g.m_document = none → OccGltfWriter.writeFile g performDoc performRoots = false)
    ∧ OccVrmlWriter.init.m_scene = none
    ∧ OccGltfWriter.init.m_document = none := by
  refine ⟨?_, ?_, rfl, rfl⟩
  · intro h
    simp [OccVrmlWriter.writeFile, h]
  · intro h
    simp [OccGltfWriter.writeFile, h]

/-- Witness for C7 on freshly constructed writers. -/
theorem c7_write_file_null_guard_witness :
    OccVrmlWriter.writeFile OccVrmlWriter.init true = false
    ∧ OccGltfWriter.writeFile OccGltfWriter.init true true = false :=
  ⟨(c7_write_file_null_guard OccVrmlWriter.init true OccGltfWriter.init true true).1 rfl,
   (c7_write_file_null_guard OccVrmlWriter.init true OccGltfWriter.init true true).2.1 rfl⟩

/-- Claim C8: on an entity driven by the mesh driver (with a non-null AIS
object, as produced for every displayed entity), applying any mode of the
mesh driver's display-mode enumeration and reading the current display mode
round-trips. -/
theorem c8_mesh_display_mode_roundtrip (entity : GraphicsEntity) (mode : Int)
    (hdrv : entity.driverPtr = some GraphicsEntityDriver.meshDriver)
    (hais : entity.aisObject.isSome = true)
    (hmode : mode ∈ (GraphicsEntityDriver.displayModes GraphicsEntityDriver.meshDriver).values) :
    ∃ e', GraphicsMeshEntityDriver.applyDisplayMode entity mode = Except.ok e'
      ∧ GraphicsMeshEntityDriver.currentDisplayMode e' = Except.ok mode := by
  rcases hobj : entity.aisObject with _ | obj
  · rw [hobj] at hais
    simp at hais
  · have hfi : (GraphicsEntityDriver.displayModes GraphicsEntityDriver.meshDriver).findIndex mode ≠ -1 := by
      intro h
      exact ((Enumeration.findIndex_eq_neg_one_iff _ _).1 h) hmode
    refine ⟨{ entity with aisObject := some { obj with displayMode := mode } }, ?_, ?_⟩
    · unfold GraphicsMeshEntityDriver.applyDisplayMode
      simp [GraphicsEntityDriver.throwIf_differentDriver, hdrv,
        GraphicsEntityDriver.throwIf_invalidDisplayMode, hfi,
        GraphicsEntity.setDisplayMode, hobj]
    · unfold GraphicsMeshEntityDriver.currentDisplayMode
      simp [GraphicsEntityDriver.throwIf_differentDriver, hdrv, GraphicsEntity.displayMode]

/-- Witness for C8: the sample mesh entity, wireframe mode. -/
theorem c8_mesh_display_mode_roundtrip_witness :
    ∃ e', GraphicsMeshEntityDriver.applyDisplayMode sampleMeshEntity MeshVS_DMF_WireFrame
            = Except.ok e'
      ∧ GraphicsMeshEntityDriver.currentDisplayMode e' = Except.ok MeshVS_DMF_WireFrame :=
  c8_mesh_display_mode_roundtrip sampleMeshEntity MeshVS_DMF_WireFrame
    (by decide) (by decide) (by decide)

/-- Claim C9: `applyDisplayMode` and `currentDisplayMode` of both drivers
fail with `std::invalid_argument` ("Invalid driver for graphics entity")
whenever the entity's driver pointer differs from the called driver, and
`applyDisplayMode` fails with `std::invalid_argument` ("Invalid display
mode") whenever the called driver matches but the mode is not in its
display-mode enumeration.  In the source both checks are the first
statements of each function, before any mutation; accordingly the embedded
`.error` results carry no updated entity or scene state. -/
theorem c9_display_mode_error_cases (entity : GraphicsEntity) (scene : GraphicsScene) (mode : Int) :
    (entity.driverPtr ≠ some GraphicsEntityDriver.shapeDriver →
       GraphicsShapeEntityDriver.applyDisplayMode entity scene mode
           = Except.error "Invalid driver for graphics entity"
       ∧ GraphicsShapeEntityDriver.currentDisplayMode entity scene
           = Except.error "Invalid driver for graphics entity")
    ∧ (entity.driverPtr ≠ some GraphicsEntityDriver.meshDriver →
       GraphicsMeshEntityDriver.applyDisplayMode entity mode
           = Except.error "Invalid driver for graphics entity"
       ∧ GraphicsMeshEntityDriver.currentDisplayMode entity
           = Except.error "Invalid driver for graphics entity")
    ∧ (entity.driverPtr = some GraphicsEntityDriver.shapeDriver →
       mode ∉ (GraphicsEntityDriver.displayModes GraphicsEntityDriver.shapeDriver).values →
       GraphicsShapeEntityDriver.applyDisplayMode entity scene mode
           = Except.error "Invalid display mode")
    ∧ (entity.driverPtr = some GraphicsEntityDriver.meshDriver →
       mode ∉ (GraphicsEntityDriver.displayModes GraphicsEntityDriver.meshDriver).values →
       GraphicsMeshEntityDriver.applyDisplayMode entity mode
           = Except.error "Invalid display mode") := by
  refine ⟨fun h => ⟨?_, ?_⟩, fun h => ⟨?_, ?_⟩, fun hd hm => ?_, fun hd hm => ?_⟩
  · unfold GraphicsShapeEntityDriver.applyDisplayMode
    simp [GraphicsEntityDriver.throwIf_differentDriver, h]
  · unfold GraphicsShapeEntityDriver.currentDisplayMode
    simp [GraphicsEntityDriver.throwIf_differentDriver, h]
  · unfold GraphicsMeshEntityDriver.applyDisplayMode
    simp [GraphicsEntityDriver.throwIf_differentDriver, h]
  · unfold GraphicsMeshEntityDriver.currentDisplayMode
    simp [GraphicsEntityDriver.throwIf_differentDriver, h]
  · have hfi : (GraphicsEntityDriver.displayModes GraphicsEntityDriver.shapeDriver).findIndex mode = -1 :=
      (Enumeration.findIndex_eq_neg_one_iff _ _).2 hm
    unfold GraphicsShapeEntityDriver.applyDisplayMode
    simp [GraphicsEntityDriver.throwIf_differentDriver, hd,
      GraphicsEntityDriver.throwIf_invalidDisplayMode, hfi]
  · have hfi : (GraphicsEntityDriver.displayModes GraphicsEntityDriver.meshDriver).findIndex mode = -1 :=
      (Enumeration.findIndex_eq_neg_one_iff _ _).2 hm
    unfold GraphicsMeshEntityDriver.applyDisplayMode
    simp [GraphicsEntityDriver.throwIf_differentDriver, hd,
      GraphicsEntityDriver.throwIf_invalidDisplayMode, hfi]

/-- Witness for C9: a default entity (null driver pointer) rejected by both
drivers, and driver-matching entities rejected on an unknown mode `99`. -/
theorem c9_display_mode_error_cases_witness :
    GraphicsShapeEntityDriver.applyDisplayMode {} {} 0
        = Except.error "Invalid driver for graphics entity"
    ∧ GraphicsMeshEntityDriver.currentDisplayMode {}
        = Except.error "Invalid driver for graphics entity"
    ∧ GraphicsShapeEntityDriver.applyDisplayMode
        (GraphicsShapeEntityDriver.createEntity sampleShapeLabel) {} 99
        = Except.error "Invalid display mode"
    ∧ GraphicsMeshEntityDriver.applyDisplayMode sampleMeshEntity 99
        = Except.error "Invalid display mode" :=
  ⟨((c9_display_mode_error_cases {} {} 0).1 (by decide)).1,
   ((c9_display_mode_error_cases {} {} 0).2.1 (by decide)).2,
   (c9_display_mode_error_cases (GraphicsShapeEntityDriver.createEntity sampleShapeLabel) {} 99).2.2.1
     (by decide) (by decide),
   (c9_display_mode_error_cases sampleMeshEntity {} 99).2.2.2
     (by decide) (by decide)⟩

/-- `eraseP` leaves a list unchanged when no element satisfies the
predicate. -/
theorem eraseP_no_match {α : Type} (p : α → Bool) (l : List α)
    (h : ∀ x ∈ l, p x = false) : l.eraseP p = l := by
  induction l with
  | nil => rfl
  | cons x t ih =>
    rw [List.eraseP_cons]
    have hx := h x (List.mem_cons_self x t)
    simp [hx, ih (fun y hy => h y (List.mem_cons_of_mem x hy))]

/-- Decomposition around the first match: when `find?` succeeds, the list
splits as a match-free prefix, the found element, and a suffix, and `eraseP`
removes exactly the found element. -/
theorem find_eraseP_split {α : Type} (p : α → Bool) (l : List α) (a : α)
    (h : l.find? p = some a) :
    ∃ l1 l2, l = l1 ++ a :: l2 ∧ (∀ x ∈ l1, p x = false) ∧ p a = true
      ∧ l.eraseP p = l1 ++ l2 := by
  induction l with
  | nil => simp at h
  | cons x t ih =>
    cases hx : p x with
    | true =>
      rw [List.find?_cons_of_pos _ hx] at h
      injection h with h1
      subst h1
      exact ⟨[], t, by simp, by simp, hx, by simp [List.eraseP_cons, hx]⟩
    | false =>
      rw [List.find?_cons_of_neg _ (by simp [hx])] at h
      obtain ⟨l1, l2, heq, hl1, hpa, her⟩ := ih h
      refine ⟨x :: l1, l2, by simp [heq], ?_, hpa, ?_⟩
      · intro y hy
        rcases List.mem_cons.mp hy with rfl | hy2
        · exact hx
        · exact hl1 y hy2
      · simp [List.eraseP_cons, hx, her]

/-- On a list whose images under `f` are pairwise distinct, searching for the
image of a member finds that member. -/
theorem find_self_of_nodup {α : Type} (f : α → Nat) (l : List α)
    (hnd : (l.map f).Nodup) (a : α) (ha : a ∈ l) :
    l.find? (fun x => f x == f a) = some a := by
  induction l with
  | nil => cases ha
  | cons x t ih =>
    rcases List.mem_cons.mp ha with rfl | hat
    · exact List.find?_cons_of_pos _ (by simp)
    · rw [List.map_cons] at hnd
      have hfx : f x ∉ t.map f := (List.nodup_cons.mp hnd).1
      have hne : (f x == f a) = false := by
        simp only [beq_eq_false_iff_ne]
        intro he
        exact hfx (he ▸ List.mem_map_of_mem f hat)
      rw [List.find?_cons_of_neg _ (by simp [hne])]
      exact ih (List.nodup_cons.mp hnd).2 hat

/-- Erasing the first item with a given node id commutes with taking the
list of node ids. -/
theorem map_id_eraseP (l : List GraphicsItem) (id : Nat) :
    (l.eraseP (fun it => it.entityTreeNodeId == id)).map (fun it => it.entityTreeNodeId)
      = (l.map (fun it => it.entityTreeNodeId)).eraseP (fun x => x == id) := by
  induction l with
  | nil => rfl
  | cons x t ih =>
    simp only [List.eraseP_cons, List.map_cons]
    cases hx : x.entityTreeNodeId == id with
    | true => simp [hx]
    | false => simp [hx, ih]

/-- Appending a fresh element preserves pairwise distinctness. -/
theorem nodup_concat_of_not_mem {α : Type} (l : List α) (a : α)
    (hnd : l.Nodup) (ha : a ∉ l) : (l ++ [a]).Nodup := by
  rw [List.nodup_append]
  refine ⟨hnd, List.nodup_singleton a, ?_⟩
  intro x hx hx1
  rw [List.mem_singleton] at hx1
  exact ha (hx1 ▸ hx)


/-- `entityAdded` dispatch when the created entity's AIS object is null:
the state is untouched. -/
theorem step_added_eq_of_none (createE : Nat → GraphicsEntity)
    (bboxOf : Option AisObject → Bnd_Box) (st : GuiDocumentState) (id : Nat)
    (h : (createE id).aisObject = none) :
    GuiDocument.step createE bboxOf st (DocEvent.entityAdded id) = st := by
  unfold GuiDocument.step GuiDocument.onDocumentEntityAdded GuiDocument.mapGraphics
  simp [h]

/-- `entityAdded` dispatch when the created entity's AIS object is non-null:
one item for the id (holding the mapped entity) is appended to the side
table. -/
theorem step_added_vec_of_some (createE : Nat → GraphicsEntity)
    (bboxOf : Option AisObject → Bnd_Box) (st : GuiDocumentState) (id : Nat)
    (obj : AisObject) (h : (createE id).aisObject = some obj) :
    (GuiDocument.step createE bboxOf st (DocEvent.entityAdded id)).vecGraphicsItem
      = st.vecGraphicsItem ++ [mappedItem createE id] := by
  unfold GuiDocument.step GuiDocument.onDocumentEntityAdded GuiDocument.mapGraphics
    mappedItem mappedEntity
  simp [h]

/-- `entityAboutToBeDestroyed` dispatch when no side-table item matches:
the state is untouched. -/
theorem step_destroyed_eq_of_none (createE : Nat → GraphicsEntity)
    (bboxOf : Option AisObject → Bnd_Box) (st : GuiDocumentState) (id : Nat)
    (hfind : GuiDocument.findGraphicsItem st id = none) :
    GuiDocument.step createE bboxOf st (DocEvent.entityAboutToBeDestroyed id) = st := by
  unfold GuiDocument.step GuiDocument.onDocumentEntityAboutToBeDestroyed
  simp only [hfind]

/-- `entityAboutToBeDestroyed` dispatch when an item matches: the side table
loses the first item whose id matches. -/
theorem step_destroyed_vec_of_some (createE : Nat → GraphicsEntity)
    (bboxOf : Option AisObject → Bnd_Box) (st : GuiDocumentState) (id : Nat)
    (gfxItem : GraphicsItem) (hfind : GuiDocument.findGraphicsItem st id = some gfxItem) :
    (GuiDocument.step createE bboxOf st (DocEvent.entityAboutToBeDestroyed id)).vecGraphicsItem
      = st.vecGraphicsItem.eraseP (fun it => it.entityTreeNodeId == id) := by
  unfold GuiDocument.step GuiDocument.onDocumentEntityAboutToBeDestroyed
  simp only [hfind]

/-- Invariant preservation of the `GuiDocument` event loop: starting from a
state satisfying the side-table invariant, every trace whose additions are
fresh with respect to the current live ids preserves the invariant, and the
side table's id list evolves exactly as the reference `liveIdsAux` fold. -/
theorem run_table_lemma (createE : Nat → GraphicsEntity)
    (bboxOf : Option AisObject → Bnd_Box) (trace : List DocEvent) :
    ∀ st : GuiDocumentState,
      tableInv createE st →
      addsFresh (fun i => (createE i).aisObject.isSome)
        (st.vecGraphicsItem.map (fun it => it.entityTreeNodeId)) trace = true →
      tableInv createE (trace.foldl (GuiDocument.step createE bboxOf) st)
      ∧ (trace.foldl (GuiDocument.step createE bboxOf) st).vecGraphicsItem.map
            (fun it => it.entityTreeNodeId)
          = liveIdsAux (fun i => (createE i).aisObject.isSome)
              (st.vecGraphicsItem.map (fun it => it.entityTreeNodeId)) trace := by
  induction trace with
  | nil =>
    intro st hInv _
    exact ⟨hInv, rfl⟩
  | cons ev rest ih =>
    intro st hInv hFresh
    rw [List.foldl_cons]
    cases ev with
    | entityAdded id =>
      simp only [addsFresh, Bool.and_eq_true, Bool.not_eq_true'] at hFresh
      obtain ⟨hc, hFresh⟩ := hFresh
      have hidnot : id ∉ st.vecGraphicsItem.map (fun it => it.entityTreeNodeId) := by
        simpa using hc
      cases hais : (createE id).aisObject with
      | none =>
        rw [step_added_eq_of_none createE bboxOf st id hais]
        simp only [hais, Option.isSome_none] at hFresh
        simp only [Bool.false_eq_true, if_false] at hFresh
        have hres := ih st hInv hFresh
        simp only [liveIdsAux, hais, Option.isSome_none, Bool.false_eq_true, if_false]
        exact hres
      | some obj =>
        have hvec := step_added_vec_of_some createE bboxOf st id obj hais
        simp only [hais, Option.isSome_some, if_true] at hFresh
        have hmap : (GuiDocument.step createE bboxOf st
              (DocEvent.entityAdded id)).vecGraphicsItem.map (fun it => it.entityTreeNodeId)
            = st.vecGraphicsItem.map (fun it => it.entityTreeNodeId) ++ [id] := by
          rw [hvec]
          simp [mappedItem]
        have hInv2 : tableInv createE (GuiDocument.step createE bboxOf st
            (DocEvent.entityAdded id)) := by
          unfold tableInv tableInvL
          constructor
          · rw [hmap]
            exact nodup_concat_of_not_mem _ _ hInv.1 hidnot
          · intro it hit
            rw [hvec] at hit
            rcases List.mem_append.mp hit with hold | hnew
            · exact hInv.2 it hold
            · rw [List.mem_singleton] at hnew
              subst hnew
              exact ⟨by simp [mappedItem, hais], by simp [mappedItem]⟩
        have hFresh2 : addsFresh (fun i => (createE i).aisObject.isSome)
            ((GuiDocument.step createE bboxOf st
              (DocEvent.entityAdded id)).vecGraphicsItem.map (fun it => it.entityTreeNodeId))
            rest = true := by
          rw [hmap]
          exact hFresh
        have hres := ih _ hInv2 hFresh2
        refine ⟨hres.1, ?_⟩
        rw [hres.2, hmap]
        simp only [liveIdsAux, hais, Option.isSome_some, if_true]
    | entityAboutToBeDestroyed id =>
      simp only [addsFresh] at hFresh
      cases hfind : GuiDocument.findGraphicsItem st id with
      | none =>
        rw [step_destroyed_eq_of_none createE bboxOf st id hfind]
        have hnom : ∀ x ∈ st.vecGraphicsItem.map (fun it => it.entityTreeNodeId),
            (x == id) = false := by
          intro x hx
          rcases List.mem_map.mp hx with ⟨it, hitmem, hitx⟩
          have hne := List.find?_eq_none.mp hfind it hitmem
          simp only [Bool.not_eq_true] at hne
          rw [← hitx]
          exact hne
        have herase := eraseP_no_match (fun x => x == id)
          (st.vecGraphicsItem.map (fun it => it.entityTreeNodeId)) hnom
        rw [herase] at hFresh
        have hres := ih st hInv hFresh
        simp only [liveIdsAux]
        rw [herase]
        exact hres
      | some gfxItem =>
        have hvec := step_destroyed_vec_of_some createE bboxOf st id gfxItem hfind
        have hmap : (GuiDocument.step createE bboxOf st
              (DocEvent.entityAboutToBeDestroyed id)).vecGraphicsItem.map
                (fun it => it.entityTreeNodeId)
            = (st.vecGraphicsItem.map (fun it => it.entityTreeNodeId)).eraseP
                (fun x => x == id) := by
          rw [hvec, map_id_eraseP]
        have hInv2 : tableInv createE (GuiDocument.step createE bboxOf st
            (DocEvent.entityAboutToBeDestroyed id)) := by
          unfold tableInv tableInvL
          constructor
          · rw [hmap]
            exact List.Nodup.sublist (List.eraseP_sublist _) hInv.1
          · intro it hit
            rw [hvec] at hit
            exact hInv.2 it ((List.eraseP_sublist _).subset hit)
        have hFresh2 : addsFresh (fun i => (createE i).aisObject.isSome)
            ((GuiDocument.step createE bboxOf st
              (DocEvent.entityAboutToBeDestroyed id)).vecGraphicsItem.map
                (fun it => it.entityTreeNodeId)) rest = true := by
          rw [hmap]
          exact hFresh
        have hres := ih _ hInv2 hFresh2
        refine ⟨hres.1, ?_⟩
        rw [hres.2, hmap]
        simp only [liveIdsAux]

/-- Claim C4: after any well-formed trace of document signals (additions
carry fresh node ids), the side table holds exactly one entry per live id —
an id whose `mapGraphics` produced a non-null AIS object and that was not
destroyed since — `findGraphicsEntity` returns the entry's graphics entity
on such ids, and a default `GraphicsEntity` (null AIS object) on every
other id. -/
theorem c4_side_table_invariant (createE : Nat → GraphicsEntity)
    (bboxOf : Option AisObject → Bnd_Box) (trace : List DocEvent)
    (hfresh : addsFresh (fun i => (createE i).aisObject.isSome) [] trace = true) :
    ((GuiDocument.run createE bboxOf trace).vecGraphicsItem.map
        (fun it => it.entityTreeNodeId)).Nodup
    ∧ (GuiDocument.run createE bboxOf trace).vecGraphicsItem.map
          (fun it => it.entityTreeNodeId)
        = liveIds (fun i => (createE i).aisObject.isSome) trace
    ∧ (∀ it ∈ (GuiDocument.run createE bboxOf trace).vecGraphicsItem,
        (createE it.entityTreeNodeId).aisObject.isSome = true
        ∧ GuiDocument.findGraphicsEntity (GuiDocument.run createE bboxOf trace)
            it.entityTreeNodeId = it.graphicsEntity)
    ∧ (∀ id, id ∉ liveIds (fun i => (createE i).aisObject.isSome) trace →
        GuiDocument.findGraphicsEntity (GuiDocument.run createE bboxOf trace) id
          = ({} : GraphicsEntity)) := by
  have h0 : tableInv createE {} := by
    unfold tableInv tableInvL
    exact ⟨List.nodup_nil, fun it hit => absurd hit (List.not_mem_nil it)⟩
  obtain ⟨hInv, hids⟩ := run_table_lemma createE bboxOf trace {} h0 hfresh
  unfold GuiDocument.run
  unfold tableInv tableInvL at hInv
  refine ⟨hInv.1, hids, ?_, ?_⟩
  · intro it hit
    refine ⟨(hInv.2 it hit).1, ?_⟩
    have hfs := find_self_of_nodup (fun x => x.entityTreeNodeId)
      (trace.foldl (GuiDocument.step createE bboxOf) {}).vecGraphicsItem hInv.1 it hit
    unfold GuiDocument.findGraphicsEntity GuiDocument.findGraphicsItem
    rw [hfs]
  · intro id hid
    have hfind : (trace.foldl (GuiDocument.step createE bboxOf) {}).vecGraphicsItem.find?
        (fun item => item.entityTreeNodeId == id) = none := by
      rw [List.find?_eq_none]
      intro x hx
      simp only [beq_iff_eq]
      intro he
      apply hid
      have hm : id ∈ (trace.foldl (GuiDocument.step createE bboxOf) {}).vecGraphicsItem.map
          (fun it => it.entityTreeNodeId) := by
        rw [← he]
        exact List.mem_map_of_mem _ hx
      rw [hids] at hm
      simpa [liveIds] using hm
    unfold GuiDocument.findGraphicsEntity GuiDocument.findGraphicsItem
    rw [hfind]

/-- Witness for C4 on the sample trace (add 1, add 2, destroy 1): the side
table's id list equals the reference live-id list. -/
theorem c4_side_table_invariant_witness :
    (GuiDocument.run sampleCreateEntityOfNode sampleBBoxOf sampleTrace).vecGraphicsItem.map
        (fun it => it.entityTreeNodeId)
      = liveIds (fun i => (sampleCreateEntityOfNode i).aisObject.isSome) sampleTrace :=
  (c4_side_table_invariant sampleCreateEntityOfNode sampleBBoxOf sampleTrace (by decide)).2.1

/-- Claim C5: `onDocumentEntityAboutToBeDestroyed` removes exactly the one
side-table item whose id matches (all other items, in order, are kept) and
leaves the whole state — item list, scene, bounding box — unchanged when no
item matches; `onDocumentEntityAdded` appends at most one new item (for that
id) and keeps the existing items unchanged. -/
theorem c5_incremental_add_remove (createE : Nat → GraphicsEntity)
    (bboxOf : Option AisObject → Bnd_Box) (st : GuiDocumentState) (id : Nat)
    (hnd : (st.vecGraphicsItem.map (fun it => it.entityTreeNodeId)).Nodup) :
    (∀ gfxItem, GuiDocument.findGraphicsItem st id = some gfxItem →
       gfxItem.entityTreeNodeId = id
       ∧ ∃ l1 l2, st.vecGraphicsItem = l1 ++ gfxItem :: l2
           ∧ (∀ it ∈ l1, it.entityTreeNodeId ≠ id)
           ∧ (∀ it ∈ l2, it.entityTreeNodeId ≠ id)
           ∧ (GuiDocument.onDocumentEntityAboutToBeDestroyed bboxOf st id).vecGraphicsItem
               = l1 ++ l2)
    ∧ (GuiDocument.findGraphicsItem st id = none →
       GuiDocument.onDocumentEntityAboutToBeDestroyed bboxOf st id = st)
    ∧ ((GuiDocument.onDocumentEntityAdded createE bboxOf st id).vecGraphicsItem
         = st.vecGraphicsItem
       ∨ ∃ item : GraphicsItem, item.entityTreeNodeId = id
           ∧ (GuiDocument.onDocumentEntityAdded createE bboxOf st id).vecGraphicsItem
               = st.vecGraphicsItem ++ [item]) := by
  refine ⟨?_, ?_, ?_⟩
  · intro gfxItem hf
    have hf' : st.vecGraphicsItem.find? (fun it => it.entityTreeNodeId == id) = some gfxItem := hf
    have hpa := List.find?_some hf'
    have hgid : gfxItem.entityTreeNodeId = id := by simpa using hpa
    obtain ⟨l1, l2, heq, hl1, _, her⟩ :=
      find_eraseP_split (fun it => it.entityTreeNodeId == id) st.vecGraphicsItem gfxItem hf'
    refine ⟨hgid, l1, l2, heq, ?_, ?_, ?_⟩
    · intro it hit
      have := hl1 it hit
      simpa using this
    · intro it hit
      have hmap : st.vecGraphicsItem.map (fun x => x.entityTreeNodeId)
          = l1.map (fun x => x.entityTreeNodeId)
            ++ gfxItem.entityTreeNodeId :: l2.map (fun x => x.entityTreeNodeId) := by
        rw [heq]
        simp
      rw [hmap] at hnd
      have hnotin : gfxItem.entityTreeNodeId ∉ l2.map (fun x => x.entityTreeNodeId) :=
        (List.nodup_cons.mp (List.nodup_append.mp hnd).2.1).1
      intro he
      apply hnotin
      rw [hgid, ← he]
      exact List.mem_map_of_mem _ hit
    · have hvec : (GuiDocument.onDocumentEntityAboutToBeDestroyed bboxOf st id).vecGraphicsItem
          = st.vecGraphicsItem.eraseP (fun it => it.entityTreeNodeId == id) := by
        unfold GuiDocument.onDocumentEntityAboutToBeDestroyed
        simp only [hf]
      rw [hvec, her]
  · intro hfind
    unfold GuiDocument.onDocumentEntityAboutToBeDestroyed
    simp only [hfind]
  · cases hais : (createE id).aisObject with
    | none =>
      left
      unfold GuiDocument.onDocumentEntityAdded GuiDocument.mapGraphics
      simp [hais]
    | some obj =>
      right
      refine ⟨mappedItem createE id, by simp [mappedItem], ?_⟩
      unfold GuiDocument.onDocumentEntityAdded GuiDocument.mapGraphics
        mappedItem mappedEntity
      simp [hais]

/-- Witness for C5 on the sample state: destroying id 1 removes exactly its
item; destroying the absent id 99 changes nothing. -/
theorem c5_incremental_add_remove_witness :
    (sampleItem1.entityTreeNodeId = 1
      ∧ ∃ l1 l2, sampleState.vecGraphicsItem = l1 ++ sampleItem1 :: l2
          ∧ (∀ it ∈ l1, it.entityTreeNodeId ≠ 1)
          ∧ (∀ it ∈ l2, it.entityTreeNodeId ≠ 1)
          ∧ (GuiDocument.onDocumentEntityAboutToBeDestroyed sampleBBoxOf
              sampleState 1).vecGraphicsItem = l1 ++ l2)
    ∧ GuiDocument.onDocumentEntityAboutToBeDestroyed sampleBBoxOf sampleState 99
        = sampleState :=
  ⟨(c5_incremental_add_remove sampleCreateEntityOfNode sampleBBoxOf sampleState 1
      (by decide)).1 sampleItem1 (by decide),
   (c5_incremental_add_remove sampleCreateEntityOfNode sampleBBoxOf sampleState 99
      (by decide)).2.1 (by decide)⟩

/-- Claim C6: after `onDocumentEntityAboutToBeDestroyed` removes an entity,
the aggregate bounding box equals the fold of `BndUtils::add` over the boxes
of the AIS objects of the remaining items, starting from a void box — it is
recomputed from scratch, with no contribution from the removed entity. -/
theorem c6_bbox_recomputed (bboxOf : Option AisObject → Bnd_Box)
    (st : GuiDocumentState) (id : Nat)
    (h : (GuiDocument.findGraphicsItem st id).isSome = true) :
    (GuiDocument.onDocumentEntityAboutToBeDestroyed bboxOf st id).gpxBoundingBox
      = computeBBox bboxOf
          (GuiDocument.onDocumentEntityAboutToBeDestroyed bboxOf st id).vecGraphicsItem := by
  cases hf : GuiDocument.findGraphicsItem st id with
  | none =>
    rw [hf] at h
    simp at h
  | some gfxItem =>
    unfold GuiDocument.onDocumentEntityAboutToBeDestroyed computeBBox
    simp only [hf]

/-- Witness for C6: destroying id 1 in the sample state. -/
theorem c6_bbox_recomputed_witness :
    (GuiDocument.onDocumentEntityAboutToBeDestroyed sampleBBoxOf
        sampleState 1).gpxBoundingBox
      = computeBBox sampleBBoxOf
          (GuiDocument.onDocumentEntityAboutToBeDestroyed sampleBBoxOf
            sampleState 1).vecGraphicsItem :=
  c6_bbox_recomputed sampleBBoxOf sampleState 1 (by decide)

/-- Once the glTF transfer loop has picked a document `d`, it keeps it and
appends exactly the labels of the tree-node items of `d`, in order. -/
theorem transferLoop_from_some (d : Nat) (items : List ApplicationItem) :
    ∀ labels : List TDF_Label,
      OccGltfWriter.transferLoop (some d, labels) items
        = (some d, labels ++ items.filterMap (fun it =>
            match it with
            | ApplicationItem.documentTreeNode d2 lbl =>
                if d2 = d then some lbl else none
            | _ => none)) := by
  induction items with
  | nil =>
    intro labels
    simp [OccGltfWriter.transferLoop]
  | cons it rest ih =>
    intro labels
    cases it with
    | document d2 =>
      simp [OccGltfWriter.transferLoop, ih]
    | documentTreeNode d2 lbl =>
      by_cases hd : d2 = d
      · subst hd
        simp [OccGltfWriter.transferLoop, ih]
      · have hne : ¬(some d = some d2) := by
          simp only [Option.some.injEq]
          exact fun h => hd h.symm
        simp [OccGltfWriter.transferLoop, ih, hd, hne]
    | other =>
      simp [OccGltfWriter.transferLoop, ih]

/-- Characterization of the glTF transfer loop from the cleared accumulator:
no relevant item leaves it empty; otherwise the document is the first
relevant item's document and the labels are those of its tree nodes. -/
theorem transferLoop_from_none (span : List ApplicationItem) :
    OccGltfWriter.transferLoop (none, []) span
      = (match span.find? ApplicationItem.isRelevant with
        | none => (none, [])
        | some item =>
          (item.docOf,
           span.filterMap (fun it =>
             match it with
             | ApplicationItem.documentTreeNode d lbl =>
                 if some d = item.docOf then some lbl else none
             | _ => none))) := by
  induction span with
  | nil => rfl
  | cons it rest ih =>
    cases it with
    | document d =>
      rw [List.find?_cons_of_pos _ (by rfl)]
      simp only [OccGltfWriter.transferLoop, Option.isNone_none, if_true]
      rw [transferLoop_from_some]
      simp [ApplicationItem.docOf]
    | documentTreeNode d lbl =>
      rw [List.find?_cons_of_pos _ (by rfl)]
      simp only [OccGltfWriter.transferLoop, Option.isNone_none, if_true]
      rw [transferLoop_from_some]
      simp [ApplicationItem.docOf]
    | other =>
      rw [List.find?_cons_of_neg _ (by simp [ApplicationItem.isRelevant])]
      simp only [OccGltfWriter.transferLoop]
      rw [ih]
      cases hfind : rest.find? ApplicationItem.isRelevant <;> simp [hfind]

/-- Claim C10: `OccGltfWriter::transfer` returns `false` exactly when the
span holds no document and no document tree node; otherwise it returns
`true`, sets the writer's document to the document of the first such item,
and collects as root labels exactly the labels of the tree-node items whose
document equals that first document, in order. -/
theorem c10_gltf_transfer_spec (w : OccGltfWriter) (span : List ApplicationItem) :
    ((OccGltfWriter.transfer w span).fst = false
        ↔ (∀ it ∈ span, it.isRelevant = false))
    ∧ (∀ item, span.find? ApplicationItem.isRelevant = some item →
        (OccGltfWriter.transfer w span).fst = true
        ∧ (OccGltfWriter.transfer w span).snd.m_document = item.docOf
        ∧ (OccGltfWriter.transfer w span).snd.m_seqRootLabel
            = span.filterMap (fun it =>
                match it with
                | ApplicationItem.documentTreeNode d lbl =>
                    if some d = item.docOf then some lbl else none
                | _ => none)) := by
  have hloop := transferLoop_from_none span
  unfold OccGltfWriter.transfer
  cases hfind : span.find? ApplicationItem.isRelevant with
  | none =>
    rw [hfind] at hloop
    simp only [hloop]
    constructor
    · constructor
      · intro _ x hx
        by_contra hrel
        have hnone := List.find?_eq_none.mp hfind x hx
        simp only [Bool.not_eq_true] at hnone
        simp [hnone] at hrel
      · intro _
        rfl
    · intro item hitem
      cases hitem
  | some item =>
    have hrel := List.find?_some hfind
    have hmem := List.mem_of_find?_eq_some hfind
    have hds : item.docOf.isSome = true := by
      cases item with
      | document d => rfl
      | documentTreeNode d lbl => rfl
      | other => cases hrel
    rw [hfind] at hloop
    simp only [hloop]
    constructor
    · constructor
      · intro hcontra
        rw [hds] at hcontra
        cases hcontra
      · intro hall
        have := hall item hmem
        rw [this] at hrel
        cases hrel
    · intro item2 hitem2
      injection hitem2 with hi
      subst hi
      exact ⟨hds, rfl, rfl⟩

/-- Witness for C10 on the sample span: the first relevant item is a tree
node of document 5, so the writer takes document 5 and collects exactly the
labels of the two tree nodes of document 5. -/
theorem c10_gltf_transfer_spec_witness :
    (OccGltfWriter.transfer OccGltfWriter.init sampleSpan).fst = true
    ∧ (OccGltfWriter.transfer OccGltfWriter.init sampleSpan).snd.m_document
        = (ApplicationItem.documentTreeNode 5 sampleShapeLabel).docOf
    ∧ (OccGltfWriter.transfer OccGltfWriter.init sampleSpan).snd.m_seqRootLabel
        = sampleSpan.filterMap (fun it =>
            match it with
            | ApplicationItem.documentTreeNode d lbl =>
                if some d = (ApplicationItem.documentTreeNode 5 sampleShapeLabel).docOf
                then some lbl else none
            | _ => none) :=
  (c10_gltf_transfer_spec OccGltfWriter.init sampleSpan).2
    (ApplicationItem.documentTreeNode 5 sampleShapeLabel) (by decide)
